import Mathlib

/-!
Shallow embedding of the `red` activity generator (Go) and proofs about it.

The repository runs three kinds of OS-observable activity — an external
process, a create/modify/delete file lifecycle, and a loopback TCP
transmission — each logged with a shared set of correlation fields.

The embedding translates each Go function into a pure Lean function over an
explicit environment describing the outcomes of the OS calls it makes
(listen/accept/dial results, copy results, filesystem contents, user
resolution).  Log emission is modelled as a list of structured events
returned alongside each result.  Go error wrapping (`fmt.Errorf` with `%w`,
`os.PathError`) is modelled by an inductive error type with an `is`
predicate mirroring `errors.Is` unwrapping.
-/

namespace Red

/-- Go error values with wrapping, mirroring `errors.Is` unwrap chains.
`wrap` models `fmt.Errorf("...: %w", err)`; `pathError` models
`os.PathError` (whose `Unwrap` returns the inner error); the sentinel
constructors model `os.ErrNotExist`, `os.ErrPermission`,
`os.ErrNoDeadline`; `exitError` models `exec.ExitError` for a process that
terminated with the given non-zero status. -/
inductive GoError where
  | errNotExist : GoError
  | errPermission : GoError
  | errNoDeadline : GoError
  | exitError (status : Nat) : GoError
  | simple (msg : String) : GoError
  | wrap (msg : String) (inner : GoError) : GoError
  | pathError (op p : String) (inner : GoError) : GoError
deriving DecidableEq

/-- Model of Go `errors.Is e target`: unwrap `e` repeatedly looking for
`target`. -/
def GoError.is (e t : GoError) : Bool :=
  if e = t then true
  else
    match e with
    | .wrap _ inner => inner.is t
    | .pathError _ _ inner => inner.is t
    | _ => false

/-- A logrus field value: string, integer, or error. -/
inductive FVal where
  | str (s : String) : FVal
  | int (n : Int) : FVal
  | err (e : GoError) : FVal
deriving DecidableEq

/-- A logrus field set (assoc list; earlier entries shadow later ones,
modelling `WithFields` overriding previously-set keys). -/
abbrev Fields := List (String × FVal)

/-- Log levels used by the program (`Info` on success, `Error` on failure). -/
inductive LogLevel where
  | info : LogLevel
  | error : LogLevel
deriving DecidableEq

/-- One emitted structured log record. -/
structure LogEvent where
  level : LogLevel
  msg : String
  fields : Fields
deriving DecidableEq

/-- First-match association lookup on a field set. -/
def lookupF (k : String) : Fields → Option FVal
  | [] => none
  | (k', v) :: rest => if k' = k then some v else lookupF k rest

/-- Model of `Entry.WithFields`: the new fields shadow the old ones. -/
def withFields (e extra : Fields) : Fields := extra ++ e

/-- Model of the repository's `errLog` helper: log at error level with an
`error` field when an error is present, otherwise at info level. -/
def errLog (l : Fields) (e : Option GoError) (msg : String) : LogEvent :=
  match e with
  | some err => { level := .error, msg := msg, fields := ("error", .err err) :: l }
  | none => { level := .info, msg := msg, fields := l }

/-- The names of the field keys extracted from an event trace: the value of
the "file activity" field of each event that has one. -/
def fileActs (tr : List LogEvent) : List String :=
  tr.filterMap fun ev =>
    match lookupF "file activity" ev.fields with
    | some (.str s) => some s
    | _ => none

/-- The error values carried by the `error` field of events in a trace. -/
def loggedErrors (tr : List LogEvent) : List GoError :=
  tr.filterMap fun ev =>
    match lookupF "error" ev.fields with
    | some (.err e) => some e
    | _ => none

/-- Whether any error logged anywhere in the trace wraps (in the
`errors.Is` sense) the given error. -/
def traceMentions (tr : List LogEvent) (e : GoError) : Bool :=
  tr.any fun ev =>
    ev.fields.any fun kv =>
      match kv.2 with
      | .err e' => e'.is e
      | _ => false

/-- Index of the first occurrence of a string in a list. -/
def firstIdx (l : List String) (a : String) : Option Nat :=
  match l with
  | [] => none
  | x :: xs => if x = a then some 0 else (firstIdx xs a).map (· + 1)

/-- `beforeIn l a b` holds when every (first) occurrence of `b` in `l` is
preceded by an occurrence of `a`. Vacuously true when `b` is absent. -/
def beforeIn (l : List String) (a b : String) : Bool :=
  match firstIdx l b with
  | none => true
  | some j =>
    match firstIdx l a with
    | none => false
    | some i => decide (i < j)

/-- The correlation field set built once by `NewActivityGenerator`
(red.go): current username, `os.Args[0]`, the full command line joined by
single spaces, and the process id. -/
def baseFields (username : String) (argv : List String) (pid : Int) : Fields :=
  [("username", .str username),
   ("process name", .str (argv.headD "")),
   ("process command line", .str (String.intercalate " " argv)),
   ("process ID", .int pid)]

/-- Model of `NewActivityGenerator` (red.go): resolve the current user
(`userRes` is the outcome of `user.Current()`); on failure return the
wrapped error, otherwise build the immutable correlation field set once. -/
def newActivityGenerator (userRes : Except GoError String) (argv : List String)
    (pid : Int) : Except GoError Fields :=
  match userRes with
  | .error e => .error (.wrap "unable to get user information" e)
  | .ok u => .ok (baseFields u argv pid)

/-- Outcome of the spawned process once started: it either exited with a
status code, or the wait was interrupted (signal/cancellation). -/
inductive WaitOutcome where
  | exited (status : Nat) : WaitOutcome
  | interrupted (e : GoError) : WaitOutcome
deriving DecidableEq

/-- Go `os/exec` semantics of `cmd.Wait()`: returns nil only when the
process exited with status zero; a non-zero exit status yields an
`exec.ExitError`, and an interrupted wait yields that interruption's
error. -/
def cmdWait : WaitOutcome → Option GoError
  | .exited 0 => none
  | .exited s => some (.exitError s)
  | .interrupted e => some e

/-- OS outcomes for one `RunProcess` call: the result of `cmd.Start()` and,
when start succeeded, the fate of the process observed by `cmd.Wait()`. -/
structure ProcEnv where
  startErr : Option GoError
  wait : WaitOutcome
deriving DecidableEq

/-- Model of `ActivityGenerator.RunProcess` (red.go): start the command,
log the start outcome, return a wrapped start error on failure; otherwise
wait and return a wrapped error if `cmd.Wait()` failed. -/
def runProcess (base : Fields) (env : ProcEnv) :
    Except GoError Unit × List LogEvent :=
  let ev := errLog base env.startErr "process start"
  match env.startErr with
  | some e => (.error (.wrap "error starting command" e), [ev])
  | none =>
    match cmdWait env.wait with
    | some e => (.error (.wrap "error running command" e), [ev])
    | none => (.ok (), [ev])

/-- A concrete correlation field set used by witnesses and counterexamples. -/
def demoBase : Fields := baseFields "alice" ["red"] 7

/-- C1. The claim says a run whose process starts and terminates is always a
success, even with a non-zero exit status.  On the code, `cmd.Wait()`
returns an `exec.ExitError` for a non-zero exit status and `RunProcess`
wraps and returns it: with a successful start and exit status 1,
`RunProcess` returns an error, refuting the claim. -/
theorem c1_counterexample :
    (runProcess demoBase { startErr := none, wait := .exited 1 }).1
      = Except.error (GoError.wrap "error running command" (GoError.exitError 1))
    ∧ (runProcess demoBase { startErr := none, wait := .exited 1 }).1
        ≠ Except.ok () := by
  constructor
  · rfl
  · intro h
    exact Except.noConfusion h

/-- C1 (amended). `RunProcess` succeeds exactly when the process starts and
exits with status zero without the wait being interrupted; any non-zero
exit status (via `exec.ExitError` from `cmd.Wait()`), start failure, or
interrupted wait is returned as an error. -/
theorem c1_exit_status (base : Fields) (env : ProcEnv) :
    (runProcess base env).1 = Except.ok ()
      ↔ env.startErr = none ∧ env.wait = .exited 0 := by
  obtain ⟨st, w⟩ := env
  cases st with
  | some e => simp [runProcess]
  | none =>
    cases w with
    | exited s =>
      cases s with
      | zero => simp [runProcess, cmdWait]
      | succ n => simp [runProcess, cmdWait]
    | interrupted e => simp [runProcess, cmdWait]

/-- Outcome of one `io.Copy` call: either all bytes were copied, or the
copy failed after `k` bytes with the given error. -/
inductive CopyOutcome where
  | ok : CopyOutcome
  | fail (k : Nat) (e : GoError) : CopyOutcome
deriving DecidableEq

/-- Bytes reported copied, given the total available. -/
def CopyOutcome.sent (c : CopyOutcome) (total : Nat) : Nat :=
  match c with
  | .ok => total
  | .fail k _ => k

/-- The error returned by the copy, if any. -/
def CopyOutcome.errOf : CopyOutcome → Option GoError
  | .ok => none
  | .fail _ e => some e

/-- Whether the copy succeeded. -/
def CopyOutcome.isOk : CopyOutcome → Bool
  | .ok => true
  | .fail _ _ => false

/-- OS outcomes for one `LocalhostTCPConnect` call (unnamed part_001):
whether the context carries a deadline, and the result of each system call
the function makes, in source order. -/
structure NetEnv where
  dlOk : Bool
  listenErr : Option GoError
  listenerDeadlineErr : Option GoError
  listenerCloseErr : Option GoError
  acceptErr : Option GoError
  connDeadlineErr : Option GoError
  serverCopy : CopyOutcome
  dialErr : Option GoError
  clientCopy : CopyOutcome
  clientCloseErr : Option GoError
  serverAddr : String
  clientAddr : String

/-- Result of one `LocalhostTCPConnect` call, with resource bookkeeping:
which of the listener / dialed client connection / accepted server
connection had `Close` called on them, whether `g.Wait()` was reached, and
the bytes the server-side task wrote to the sink `w`. -/
structure NetResult where
  sent : Nat
  err : Option GoError
  trace : List LogEvent
  sink : List Nat
  listenerClosed : Bool
  clientConnClosed : Bool
  serverConnClosed : Bool
  waited : Bool

/-- The error produced by the server-side goroutine: accept, then (when a
deadline is present) set the connection read deadline, then copy the
connection's bytes into the sink. -/
def serverResult (env : NetEnv) : Option GoError :=
  match env.acceptErr with
  | some e => some (.wrap "error accepting connection" e)
  | none =>
    if env.dlOk then
      match env.connDeadlineErr with
      | some e => some (.wrap "unable to set server connection deadline" e)
      | none =>
        match env.serverCopy with
        | .fail _ e => some (.wrap "error copying data from server connection" e)
        | .ok => none
    else
      match env.serverCopy with
      | .fail _ e => some (.wrap "error copying data from server connection" e)
      | .ok => none

/-- The bytes the server-side task delivers to the sink, given the bytes
the client actually wrote into the connection: nothing if accept (or the
deadline set) failed, a prefix if the server copy failed midway, all of
them otherwise. -/
def serverSink (env : NetEnv) (clientBytes : List Nat) : List Nat :=
  match env.acceptErr with
  | some _ => []
  | none =>
    if env.dlOk && env.connDeadlineErr.isSome then []
    else
      match env.serverCopy with
      | .fail k _ => clientBytes.take k
      | .ok => clientBytes

/-- The deferred listener-close log entry: the code logs (and does not
return) a listener `Close` failure. -/
def listenerCloseLog (base : Fields) (env : NetEnv) : List LogEvent :=
  match env.listenerCloseErr with
  | some e => [{ level := .error, msg := "close TCP listener",
                 fields := ("error", .err e) :: base }]
  | none => []

/-- Model of `LocalhostTCPConnect` (unnamed part_001): bind a loopback
listener (close it, via defer, on every later exit), optionally set its
deadline, start the server-side accept/copy task in an errgroup, dial the
listener, copy the payload into the client connection, log the "data
transmission" event, close the client connection, and only then join the
errgroup.  Error paths return immediately: a client-copy or client-close
failure returns before `g.Wait()`, and nothing ever closes the accepted
server-side connection. -/
def localhostTCPConnect (base : Fields) (env : NetEnv) (payload : List Nat) :
    NetResult :=
  match env.listenErr with
  | some e =>
    { sent := 0, err := some (.wrap "unable to create TCP listener" e),
      trace := [], sink := [], listenerClosed := false,
      clientConnClosed := false, serverConnClosed := false, waited := false }
  | none =>
    let closeLog := listenerCloseLog base env
    match env.dlOk, env.listenerDeadlineErr with
    | true, some e =>
      { sent := 0, err := some (.wrap "unable to set listener deadline" e),
        trace := closeLog, sink := [], listenerClosed := true,
        clientConnClosed := false, serverConnClosed := false, waited := false }
    | _, _ =>
      match env.dialErr with
      | some e =>
        { sent := 0,
          err := some (.wrap "unable to connect to loopback TCP listener" e),
          trace := closeLog, sink := [], listenerClosed := true,
          clientConnClosed := false, serverConnClosed := false, waited := false }
      | none =>
        let sent := env.clientCopy.sent payload.length
        let clientBytes :=
          match env.clientCopy with
          | .ok => payload
          | .fail k _ => payload.take k
        let l := withFields base
          [("destination address", .str env.serverAddr),
           ("source address", .str env.clientAddr),
           ("protocol", .str "tcp"),
           ("data sent (bytes)", .int sent)]
        let ev := errLog l env.clientCopy.errOf "data transmission"
        match env.clientCopy with
        | .fail _ e =>
          { sent := sent,
            err := some (.wrap "error copying data to client connection" e),
            trace := [ev] ++ closeLog, sink := serverSink env clientBytes,
            listenerClosed := true, clientConnClosed := false,
            serverConnClosed := false, waited := false }
        | .ok =>
          match env.clientCloseErr with
          | some e =>
            { sent := sent,
              err := some (.wrap "error closing client connection" e),
              trace := [ev] ++ closeLog, sink := serverSink env clientBytes,
              listenerClosed := true, clientConnClosed := true,
              serverConnClosed := false, waited := false }
          | none =>
            match serverResult env with
            | some e =>
              { sent := sent, err := some (.wrap "server listener error" e),
                trace := [ev] ++ closeLog, sink := serverSink env clientBytes,
                listenerClosed := true, clientConnClosed := true,
                serverConnClosed := false, waited := true }
            | none =>
              { sent := sent, err := none, trace := [ev] ++ closeLog,
                sink := serverSink env clientBytes, listenerClosed := true,
                clientConnClosed := true, serverConnClosed := false,
                waited := true }

/-- All the OS calls made by one transmit call succeed. -/
def NetEnv.allOk (env : NetEnv) : Bool :=
  env.listenErr.isNone
    && (!env.dlOk || env.listenerDeadlineErr.isNone)
    && env.dialErr.isNone
    && env.clientCopy.isOk
    && env.clientCloseErr.isNone
    && env.acceptErr.isNone
    && (!env.dlOk || env.connDeadlineErr.isNone)
    && env.serverCopy.isOk

/-- A fully successful network environment, used as concrete input. -/
def okNetEnv : NetEnv :=
  { dlOk := true, listenErr := none, listenerDeadlineErr := none,
    listenerCloseErr := none, acceptErr := none, connDeadlineErr := none,
    serverCopy := .ok, dialErr := none, clientCopy := .ok,
    clientCloseErr := none, serverAddr := "127.0.0.1:42424",
    clientAddr := "127.0.0.1:55555" }

/-- A network environment in which both the client-side write and the
server-side read fail, everything else succeeding. -/
def bothFailNetEnv : NetEnv :=
  { dlOk := true, listenErr := none, listenerDeadlineErr := none,
    listenerCloseErr := none, acceptErr := none, connDeadlineErr := none,
    serverCopy := .fail 0 (.simple "server read failed"), dialErr := none,
    clientCopy := .fail 2 (.simple "client write failed"),
    clientCloseErr := none, serverAddr := "127.0.0.1:42424",
    clientAddr := "127.0.0.1:55555" }

/-- C2. Whenever the OS calls of one transmit all succeed, the sink
receives exactly the payload bytes and the reported bytes-sent count is the
payload length (and no error is returned), for every payload including the
empty one. -/
theorem c2_payload_delivery (base : Fields) (env : NetEnv) (payload : List Nat)
    (h : env.allOk = true) :
    (localhostTCPConnect base env payload).sink = payload
    ∧ (localhostTCPConnect base env payload).sent = payload.length
    ∧ (localhostTCPConnect base env payload).err = none := by
  obtain ⟨dlOk, lErr, ldErr, lcErr, aErr, cdErr, sCopy, dErr, cCopy, ccErr, sa, ca⟩ := env
  cases cCopy with
  | fail k e => simp [NetEnv.allOk, CopyOutcome.isOk] at h
  | ok =>
  cases sCopy with
  | fail k e => simp [NetEnv.allOk, CopyOutcome.isOk] at h
  | ok =>
  cases lErr with
  | some e => simp [NetEnv.allOk] at h
  | none =>
  cases dErr with
  | some e => simp [NetEnv.allOk] at h
  | none =>
  cases ccErr with
  | some e => simp [NetEnv.allOk] at h
  | none =>
  cases aErr with
  | some e => simp [NetEnv.allOk] at h
  | none =>
  cases dlOk with
  | false =>
    cases ldErr with
    | some e => exact ⟨rfl, rfl, rfl⟩
    | none => exact ⟨rfl, rfl, rfl⟩
  | true =>
    cases ldErr with
    | some e => simp [NetEnv.allOk] at h
    | none =>
      cases cdErr with
      | some e => simp [NetEnv.allOk] at h
      | none => exact ⟨rfl, rfl, rfl⟩

/-- C2 witness: the five-byte payload "hello" is delivered whole and
counted as five bytes sent. -/
theorem c2_witness :
    okNetEnv.allOk = true
    ∧ ((localhostTCPConnect demoBase okNetEnv [104, 101, 108, 108, 111]).sink
          = [104, 101, 108, 108, 111]
        ∧ (localhostTCPConnect demoBase okNetEnv [104, 101, 108, 108, 111]).sent
            = [104, 101, 108, 108, 111].length
        ∧ (localhostTCPConnect demoBase okNetEnv [104, 101, 108, 108, 111]).err
            = none) :=
  ⟨rfl, c2_payload_delivery demoBase okNetEnv [104, 101, 108, 108, 111] rfl⟩

/-- C3. The claim says the transmit does not complete until both the
client-side write and the server-side read finish, and that when both fail
the server-side failure is still logged.  On the code, a failing
client-side copy returns before `g.Wait()` (so the server task is not
joined) and the server error appears nowhere in the log trace: at a
concrete environment where both copies fail, `waited` is false and no
logged error wraps the server error. -/
theorem c3_counterexample :
    (localhostTCPConnect demoBase bothFailNetEnv [1, 2, 3]).waited = false
    ∧ traceMentions (localhostTCPConnect demoBase bothFailNetEnv [1, 2, 3]).trace
        (.simple "server read failed") = false
    ∧ (localhostTCPConnect demoBase bothFailNetEnv [1, 2, 3]).err
        = some (.wrap "error copying data to client connection"
            (.simple "client write failed")) := by
  refine ⟨rfl, ?_, rfl⟩
  decide

/-- C3 (amended). When the client-side copy fails (after a successful
listen, optional deadline set, and dial), the transmit returns the wrapped
client error immediately: the errgroup is not joined, and the only errors
logged are the client-copy error and (when the deferred listener close
fails) the listener-close error — the server-side failure is neither
returned nor logged. -/
theorem c3_client_failure_priority (base : Fields) (env : NetEnv)
    (payload : List Nat) (k : Nat) (e : GoError)
    (hl : env.listenErr = none)
    (hd : (env.dlOk && env.listenerDeadlineErr.isSome) = false)
    (hdial : env.dialErr = none)
    (hc : env.clientCopy = .fail k e) :
    (localhostTCPConnect base env payload).err
        = some (.wrap "error copying data to client connection" e)
    ∧ (localhostTCPConnect base env payload).waited = false
    ∧ loggedErrors (localhostTCPConnect base env payload).trace
        = e :: (match env.listenerCloseErr with
                | some lc => [lc]
                | none => []) := by
  obtain ⟨dlOk, lErr, ldErr, lcErr, aErr, cdErr, sCopy, dErr, cCopy, ccErr, sa, ca⟩ := env
  simp only at hl hd hdial hc
  subst hl hdial hc
  cases dlOk with
  | true =>
    cases ldErr with
    | some e' => simp at hd
    | none =>
      cases lcErr with
      | some lc => exact ⟨rfl, rfl, rfl⟩
      | none => exact ⟨rfl, rfl, rfl⟩
  | false =>
    cases ldErr with
    | some e' =>
      cases lcErr with
      | some lc => exact ⟨rfl, rfl, rfl⟩
      | none => exact ⟨rfl, rfl, rfl⟩
    | none =>
      cases lcErr with
      | some lc => exact ⟨rfl, rfl, rfl⟩
      | none => exact ⟨rfl, rfl, rfl⟩

/-- C3 amended-theorem witness at a concrete environment. -/
theorem c3_client_failure_priority_witness :
    (localhostTCPConnect demoBase bothFailNetEnv [9, 9, 9]).err
        = some (.wrap "error copying data to client connection"
            (.simple "client write failed"))
    ∧ (localhostTCPConnect demoBase bothFailNetEnv [9, 9, 9]).waited = false
    ∧ loggedErrors (localhostTCPConnect demoBase bothFailNetEnv [9, 9, 9]).trace
        = .simple "client write failed"
            :: (match bothFailNetEnv.listenerCloseErr with
                | some lc => [lc]
                | none => []) :=
  c3_client_failure_priority demoBase bothFailNetEnv [9, 9, 9] 2
    (.simple "client write failed") rfl rfl rfl rfl

/-- C4. The claim says the listener, the accepted server-side connection
and the dialed client-side connection are all closed on every exit path.
On the code, nothing ever closes the accepted server-side connection: even
on a fully successful run, only the listener and the client connection are
closed. -/
theorem c4_counterexample :
    (localhostTCPConnect demoBase okNetEnv [104, 105]).listenerClosed = true
    ∧ (localhostTCPConnect demoBase okNetEnv [104, 105]).clientConnClosed = true
    ∧ (localhostTCPConnect demoBase okNetEnv [104, 105]).serverConnClosed = false :=
  ⟨rfl, rfl, rfl⟩

/-- C4 (amended). On every exit path: the listener is closed exactly when
the bind succeeded; the accepted server-side connection is never closed by
this function; and the dialed client-side connection is closed exactly when
the listen, (optional) listener-deadline set, dial, and client-side copy
all succeeded. -/
theorem c4_close_behaviour (base : Fields) (env : NetEnv) (payload : List Nat) :
    (localhostTCPConnect base env payload).listenerClosed = env.listenErr.isNone
    ∧ (localhostTCPConnect base env payload).serverConnClosed = false
    ∧ (localhostTCPConnect base env payload).clientConnClosed
        = (env.listenErr.isNone
            && !(env.dlOk && env.listenerDeadlineErr.isSome)
            && env.dialErr.isNone
            && env.clientCopy.isOk) := by
  obtain ⟨dlOk, lErr, ldErr, lcErr, aErr, cdErr, sCopy, dErr, cCopy, ccErr, sa, ca⟩ := env
  cases lErr <;> cases dlOk <;> cases ldErr <;> cases dErr <;> cases cCopy <;>
    cases ccErr <;> cases aErr <;> cases cdErr <;> cases sCopy <;>
    exact ⟨rfl, rfl, rfl⟩

/-- An open file handle; `name` is what Go's `file.Name()` reports (the
path `os.Create` was called with). -/
structure FileHandle where
  name : String
deriving DecidableEq

/-- Model of `os.Remove` against a filesystem given as the list of existing
(removable) paths: removing an absent path fails with an `os.PathError`
wrapping `os.ErrNotExist`, as Go's `os.Remove` does. -/
def osRemove (fs : List String) (p : String) : Option GoError :=
  if p ∈ fs then none else some (.pathError "remove" p .errNotExist)

/-- Model of `ActivityGenerator.CreateFile` (red.go): resolve the absolute
path (`abs` is `filepath.Abs`'s behaviour), attempt `os.Create`
(`createErr` is its outcome), log a "create" event either way, and return
the open handle on success. -/
def createFile (base : Fields) (abs : String → Except GoError String)
    (createErr : Option GoError) (path : String) :
    Except GoError FileHandle × List LogEvent :=
  match abs path with
  | .error e => (.error (.wrap "unable to get absolute path" e), [])
  | .ok absPath =>
    let l := withFields base
      [("file activity", .str "create"), ("file path", .str absPath)]
    let ev := errLog l createErr "create file"
    match createErr with
    | some e => (.error (.wrap "unable to create file" e), [ev])
    | none => (.ok { name := absPath }, [ev])

/-- OS outcomes for one `ModifyFile` call. -/
structure ModEnv where
  deadlinePresent : Bool
  setDeadlineErr : Option GoError
  copyErr : Option GoError

/-- Model of `ActivityGenerator.ModifyFile` (red.go): reject a nil handle,
resolve the handle's absolute path, apply the context deadline to the write
when present (tolerating `os.ErrNoDeadline`), copy the payload into the
file, and log a "modify" event regardless of the copy's outcome. -/
def modifyFile (base : Fields) (abs : String → Except GoError String)
    (env : ModEnv) (file : Option FileHandle) :
    Except GoError Unit × List LogEvent :=
  match file with
  | none => (.error (.simple "error attempting to modify nil file"), [])
  | some f =>
    match abs f.name with
    | .error e => (.error (.wrap "unable to get absolute path" e), [])
    | .ok absPath =>
      let dlFail : Option GoError :=
        if env.deadlinePresent then
          match env.setDeadlineErr with
          | some e =>
            if e.is .errNoDeadline then none
            else some (.wrap "unable to set write deadline" e)
          | none => none
        else none
      match dlFail with
      | some e => (.error e, [])
      | none =>
        let l := withFields base
          [("file activity", .str "modify"), ("file path", .str absPath)]
        let ev := errLog l env.copyErr "modify file"
        match env.copyErr with
        | some _ => (.error (.simple "error attempting to modify file"), [ev])
        | none => (.ok (), [ev])

/-- Model of `ActivityGenerator.DeleteFile` (red.go): resolve the absolute
path (used for logging), call `os.Remove` on the original path, log a
"delete" event regardless of the removal's outcome, and wrap a removal
failure. -/
def deleteFile (base : Fields) (abs : String → Except GoError String)
    (fs : List String) (path : String) :
    Except GoError Unit × List LogEvent :=
  match abs path with
  | .error e => (.error (.wrap "unable to get absolute path" e), [])
  | .ok absPath =>
    let l := withFields base
      [("file activity", .str "delete"), ("file path", .str absPath)]
    let rmErr := osRemove fs path
    let ev := errLog l rmErr "delete file"
    match rmErr with
    | some e => (.error (.wrap "error attempting to delete file" e), [ev])
    | none => (.ok (), [ev])

/-- Whether some event in the trace carries the given "file activity". -/
def hasFileActivity (tr : List LogEvent) (act : String) : Bool :=
  tr.any fun ev => lookupF "file activity" ev.fields == some (.str act)

/-- C6. Deleting a path whose file does not exist fails, the returned error
wraps the not-exist condition (so `errors.Is` against `os.ErrNotExist`
holds), and a "delete" event is logged whether or not the removal
succeeds. -/
theorem c6_delete_missing (base : Fields)
    (abs : String → Except GoError String) (fs : List String)
    (path aPath : String) (habs : abs path = Except.ok aPath) :
    hasFileActivity (deleteFile base abs fs path).2 "delete" = true
    ∧ (path ∉ fs →
        ∃ e, (deleteFile base abs fs path).1 = Except.error e
          ∧ e.is GoError.errNotExist = true) := by
  unfold deleteFile
  rw [habs]
  by_cases hmem : path ∈ fs
  · refine ⟨?_, fun hnot => absurd hmem hnot⟩
    simp [osRemove, hmem, errLog, hasFileActivity, lookupF, withFields]
  · refine ⟨?_, fun _ => ?_⟩
    · simp [osRemove, hmem, errLog, hasFileActivity, lookupF, withFields]
    · refine ⟨.wrap "error attempting to delete file"
        (.pathError "remove" path .errNotExist), ?_, ?_⟩
      · simp [osRemove, hmem]
      · simp [GoError.is]

/-- C6 witness: deleting "ghost" from an empty filesystem. -/
theorem c6_delete_missing_witness :
    hasFileActivity
        (deleteFile demoBase (fun p => Except.ok ("/tmp/" ++ p)) [] "ghost").2
        "delete" = true
    ∧ ("ghost" ∉ ([] : List String) →
        ∃ e, (deleteFile demoBase (fun p => Except.ok ("/tmp/" ++ p)) [] "ghost").1
            = Except.error e
          ∧ e.is GoError.errNotExist = true) :=
  c6_delete_missing demoBase (fun p => Except.ok ("/tmp/" ++ p)) [] "ghost"
    "/tmp/ghost" rfl

/-- OS outcomes for one `ConnectAndTransmit` call. -/
structure CATEnv where
  dialErr : Option GoError
  localAddr : String
  remoteAddr : String
  copy : CopyOutcome
  closeErr : Option GoError

/-- Result of one `ConnectAndTransmit` call, with resource bookkeeping. -/
structure CATResult where
  res : Except GoError Unit
  trace : List LogEvent
  dialed : Bool
  connCloseAttempted : Bool

/-- Model of `ActivityGenerator.ConnectAndTransmit` (red.go): a nil payload
reader is rejected before anything else; otherwise dial the address (the
connection's close is deferred, logging any close failure), copy the
payload into the connection, and log the "data transmission" event. -/
def connectAndTransmit (base : Fields) (env : CATEnv) (addr : String)
    (payload : Option (List Nat)) : CATResult :=
  match payload with
  | none =>
    { res := .error (.simple "invalid nil payload io.Reader"), trace := [],
      dialed := false, connCloseAttempted := false }
  | some p =>
    match env.dialErr with
    | some e =>
      { res := .error (.wrap ("unable to connect to address " ++ addr) e),
        trace := [], dialed := true, connCloseAttempted := false }
    | none =>
      let closeEvs : List LogEvent :=
        match env.closeErr with
        | some e => [{ level := .error, msg := "close client network connection",
                       fields := ("error", .err e) :: base }]
        | none => []
      let sent := env.copy.sent p.length
      let l := withFields base
        [("destination address", .str env.remoteAddr),
         ("source address", .str env.localAddr),
         ("protocol", .str "tcp")]
      let ev := errLog (withFields l [("data sent (bytes)", .int sent)])
        env.copy.errOf "data transmission"
      match env.copy with
      | .fail _ e =>
        { res := .error (.wrap "error transmitting data" e),
          trace := [ev] ++ closeEvs, dialed := true, connCloseAttempted := true }
      | .ok =>
        { res := .ok (), trace := [ev] ++ closeEvs, dialed := true,
          connCloseAttempted := true }

/-- C10. `ConnectAndTransmit` with a nil payload reader returns an error
with no connection dialed and an empty log trace: no network side effect
occurs and no transmission event is logged, whatever the environment. -/
theorem c10_nil_payload (base : Fields) (env : CATEnv) (addr : String) :
    (connectAndTransmit base env addr none).res
        = Except.error (GoError.simple "invalid nil payload io.Reader")
    ∧ (connectAndTransmit base env addr none).dialed = false
    ∧ (connectAndTransmit base env addr none).trace = [] :=
  ⟨rfl, rfl, rfl⟩

/-- Model of `filepath.Join` at the granularity the claims need: the
directory followed by the separator and the file name. -/
def joinPath (a b : String) : String := a ++ "/" ++ b

/-- Environment for the file stage of `RunActivities` (unnamed part_001):
the OS temp directory, the behaviour of `filepath.Abs`, the random draw
`r.Intn(1_000_000)` (reduced mod 1000000), and the outcomes of the create
(`os.Create`), modify (`f.WriteString`), close (`f.Close`) and delete
(`os.Remove`) calls. -/
structure ActEnv where
  tempDir : String
  absDir : String → Except GoError String
  rnd : Nat
  createErr : Option GoError
  writeErr : Option GoError
  closeErr : Option GoError
  deleteErr : Option GoError

/-- Result of the file stage of `RunActivities`: the surfaced error, the
emitted log trace, the path handed to `os.Create` (when reached), and
whether the deferred delete was attempted. -/
structure FileSectionResult where
  err : Option GoError
  trace : List LogEvent
  pathUsed : Option String
  deleteAttempted : Bool

/-- Model of the create→modify→delete file stage of `RunActivities`
(unnamed part_001, lines 126-173): default the directory to the OS temp
directory when empty, resolve it to an absolute path, build the file path
from a random name plus the configured extension, create the file (logging
a "create" event either way), then run the modify inside a closure whose
deferred cleanup always closes the file (logging any close failure) and
attempts the delete (logging a "delete" event either way); the modify
error, when present, is the surfaced error, otherwise a delete failure
is. -/
def fileSection (base : Fields) (env : ActEnv) (directory fileExt : String) :
    FileSectionResult :=
  let dir0 := if directory = "" then env.tempDir else directory
  match env.absDir dir0 with
  | .error e =>
    { err := some (.wrap "unable to get absolute path for directory" e),
      trace := [], pathUsed := none, deleteAttempted := false }
  | .ok dirAbs =>
    let path := joinPath dirAbs (toString (env.rnd % 1000000) ++ fileExt)
    let fLog := withFields base
      [("file path", .str path), ("file activity", .str "create")]
    let evC := errLog fLog env.createErr "create file"
    match env.createErr with
    | some e =>
      { err := some (.wrap "unable to create file" e), trace := [evC],
        pathUsed := some path, deleteAttempted := false }
    | none =>
      let evM := errLog (withFields fLog [("file activity", .str "modify")])
        env.writeErr "modify file"
      let closeEvs : List LogEvent :=
        match env.closeErr with
        | some e => [{ level := .error, msg := "close file",
                       fields := ("error", .err e) :: base }]
        | none => []
      let evD := errLog (withFields fLog [("file activity", .str "delete")])
        env.deleteErr "delete file"
      let surfaced : Option GoError :=
        match env.writeErr with
        | some we => some (.wrap "unable to write to string" we)
        | none =>
          match env.deleteErr with
          | some de => some (.wrap "unable to delete file" de)
          | none => none
      { err := surfaced, trace := [evC, evM] ++ closeEvs ++ [evD],
        pathUsed := some path, deleteAttempted := true }

/-- C5. After a successful create, the deferred close-then-delete cleanup
always runs (a "delete" event is in the trace whatever the modify and
delete outcomes); a modify failure is the surfaced error even when the
delete also fails; and when the modify succeeds but the delete fails, the
delete error is surfaced. -/
theorem c5_composite_cleanup (u : String) (argv : List String) (pid : Int)
    (env : ActEnv) (dir ext dAbs : String)
    (habs : env.absDir (if dir = "" then env.tempDir else dir) = Except.ok dAbs)
    (hc : env.createErr = none) :
    (fileSection (baseFields u argv pid) env dir ext).deleteAttempted = true
    ∧ hasFileActivity
        (fileSection (baseFields u argv pid) env dir ext).trace "delete" = true
    ∧ (∀ em, env.writeErr = some em →
        (fileSection (baseFields u argv pid) env dir ext).err
          = some (.wrap "unable to write to string" em))
    ∧ (env.writeErr = none → ∀ ed, env.deleteErr = some ed →
        (fileSection (baseFields u argv pid) env dir ext).err
          = some (.wrap "unable to delete file" ed)) := by
  simp only [fileSection]
  rw [habs, hc]
  cases hw : env.writeErr with
  | some we =>
    cases hcl : env.closeErr <;> cases hd : env.deleteErr <;>
      refine ⟨rfl, rfl, fun em hem => ?_, fun hw' => ?_⟩
    all_goals first
      | (cases hw')
      | (cases hem; rfl)
  | none =>
    cases hcl : env.closeErr <;> cases hd : env.deleteErr <;>
      refine ⟨rfl, rfl, fun em hem => ?_, fun hn ed hed => ?_⟩
    all_goals first
      | (cases hem)
      | (cases hed; rfl)
      | (cases hed)

/-- A concrete file-stage environment in which the modify and the delete
both fail after a successful create. -/
def modifyAndDeleteFailEnv : ActEnv :=
  { tempDir := "/tmp", absDir := fun d => Except.ok d, rnd := 5,
    createErr := none, writeErr := some (.simple "disk full"),
    closeErr := none, deleteErr := some (.simple "remove refused") }

/-- C5 witness: with a failing modify and a failing delete, the delete is
still attempted and the modify error is the surfaced one. -/
theorem c5_composite_cleanup_witness :
    (fileSection (baseFields "alice" ["red"] 7) modifyAndDeleteFailEnv "" ".txt").deleteAttempted
        = true
    ∧ hasFileActivity
        (fileSection (baseFields "alice" ["red"] 7) modifyAndDeleteFailEnv "" ".txt").trace
        "delete" = true
    ∧ (fileSection (baseFields "alice" ["red"] 7) modifyAndDeleteFailEnv "" ".txt").err
        = some (.wrap "unable to write to string" (.simple "disk full")) := by
  have h := c5_composite_cleanup "alice" ["red"] 7 modifyAndDeleteFailEnv ""
    ".txt" "/tmp" rfl rfl
  exact ⟨h.1, h.2.1, h.2.2.1 (.simple "disk full") rfl⟩

/-- C8. In every run of the file stage, the logged "create" event precedes
the logged "modify" event, which precedes the logged "delete" event
(ordering read off the sequence of "file activity" field values in the
trace; later events are only emitted when earlier ones are). -/
theorem c8_event_order (u : String) (argv : List String) (pid : Int)
    (env : ActEnv) (dir ext : String) :
    beforeIn (fileActs (fileSection (baseFields u argv pid) env dir ext).trace)
        "create" "modify" = true
    ∧ beforeIn (fileActs (fileSection (baseFields u argv pid) env dir ext).trace)
        "modify" "delete" = true := by
  rcases habs : env.absDir (if dir = "" then env.tempDir else dir) with e | dAbs <;>
    simp only [fileSection] <;> rw [habs]
  · exact ⟨rfl, rfl⟩
  · cases hc : env.createErr <;> cases hw : env.writeErr <;>
      cases hcl : env.closeErr <;> cases hd : env.deleteErr <;>
      exact ⟨rfl, rfl⟩

/-- C9. The path handed to `os.Create` is always the absolute form of the
configured directory — defaulted to the OS temp directory when the
configured directory is the empty string — joined with the randomly
generated name carrying the configured extension. -/
theorem c9_path_computation (base : Fields) (env : ActEnv) (dir ext dAbs : String)
    (habs : env.absDir (if dir = "" then env.tempDir else dir) = Except.ok dAbs) :
    (fileSection base env dir ext).pathUsed
      = some (joinPath dAbs (toString (env.rnd % 1000000) ++ ext)) := by
  simp only [fileSection]
  rw [habs]
  cases hc : env.createErr <;> rfl

/-- C9 witness: with the empty directory, the temp directory "/tmp" is the
one resolved and joined with the generated name "5.txt". -/
theorem c9_path_computation_witness :
    (fileSection demoBase modifyAndDeleteFailEnv "" ".txt").pathUsed
      = some (joinPath "/tmp" (toString (modifyAndDeleteFailEnv.rnd % 1000000) ++ ".txt")) :=
  c9_path_computation demoBase modifyAndDeleteFailEnv "" ".txt" "/tmp" rfl

/-- The keys of a field set. -/
def keysOf (f : Fields) : List String := f.map Prod.fst

/-- The four correlation keys set once per run. -/
def baseKeys : List String :=
  ["username", "process name", "process command line", "process ID"]

lemma lookupF_append_of_not_mem (k : String) (extra b : Fields)
    (h : k ∉ keysOf extra) : lookupF k (extra ++ b) = lookupF k b := by
  induction extra with
  | nil => rfl
  | cons kv rest ih =>
    obtain ⟨k', v'⟩ := kv
    simp only [keysOf, List.map_cons, List.mem_cons, not_or] at h
    obtain ⟨h1, h2⟩ := h
    simp only [List.cons_append, lookupF]
    rw [if_neg fun hh => h1 hh.symm]
    exact ih (by simpa [keysOf] using h2)

lemma base_key_cases (u : String) (argv : List String) (pid : Int)
    (k : String) (v : FVal) (h : (k, v) ∈ baseFields u argv pid) :
    k ∈ baseKeys := by
  simp only [baseFields, List.mem_cons, List.not_mem_nil, or_false,
    Prod.mk.injEq] at h
  rcases h with ⟨rfl, rfl⟩ | ⟨rfl, rfl⟩ | ⟨rfl, rfl⟩ | ⟨rfl, rfl⟩ <;> decide

lemma lookupF_base (u : String) (argv : List String) (pid : Int)
    (k : String) (v : FVal) (h : (k, v) ∈ baseFields u argv pid) :
    lookupF k (baseFields u argv pid) = some v := by
  simp only [baseFields, List.mem_cons, List.not_mem_nil, or_false,
    Prod.mk.injEq] at h
  rcases h with ⟨rfl, rfl⟩ | ⟨rfl, rfl⟩ | ⟨rfl, rfl⟩ | ⟨rfl, rfl⟩ <;> rfl

/-- Every correlation field survives, with its original value, in every
event of the trace: no base field is lost or overwritten. -/
def preservesBase (base : Fields) (tr : List LogEvent) : Prop :=
  ∀ ev ∈ tr, ∀ k v, (k, v) ∈ base → lookupF k ev.fields = some v

lemma preserved_in_extra (u : String) (argv : List String) (pid : Int)
    (extra : Fields) (hx : ∀ s ∈ keysOf extra, s ∉ baseKeys)
    (k : String) (v : FVal) (hm : (k, v) ∈ baseFields u argv pid) :
    lookupF k (extra ++ baseFields u argv pid) = some v := by
  rw [lookupF_append_of_not_mem]
  · exact lookupF_base u argv pid k v hm
  · intro hk
    exact hx k hk (base_key_cases u argv pid k v hm)

lemma forall_mem_not_base_of (ks : List String) (hk : ∀ s ∈ ks, s ∉ baseKeys)
    (extra : Fields) (he : keysOf extra = ks) :
    ∀ s ∈ keysOf extra, s ∉ baseKeys := he ▸ hk

lemma errLog_preserves (u : String) (argv : List String) (pid : Int)
    (extra : Fields) (hx : ∀ s ∈ keysOf extra, s ∉ baseKeys)
    (e : Option GoError) (msg : String)
    (k : String) (v : FVal) (hm : (k, v) ∈ baseFields u argv pid) :
    lookupF k (errLog (extra ++ baseFields u argv pid) e msg).fields = some v := by
  cases e with
  | none => exact preserved_in_extra u argv pid extra hx k v hm
  | some err =>
    refine preserved_in_extra u argv pid (("error", .err err) :: extra) ?_ k v hm
    intro s hs
    simp only [keysOf, List.map_cons, List.mem_cons] at hs
    rcases hs with rfl | hs
    · decide
    · exact hx s (by simpa [keysOf] using hs)

lemma runProcess_preserves (u : String) (argv : List String) (pid : Int)
    (env : ProcEnv) :
    preservesBase (baseFields u argv pid)
      (runProcess (baseFields u argv pid) env).2 := by
  intro ev hev k v hm
  obtain ⟨st, w⟩ := env
  cases st with
  | some e =>
    simp only [runProcess, List.mem_singleton] at hev
    subst hev
    exact errLog_preserves u argv pid [] (by decide) (some e) "process start" k v hm
  | none =>
    cases hw : cmdWait w <;>
      simp only [runProcess, hw, List.mem_singleton] at hev <;>
      (subst hev;
       exact errLog_preserves u argv pid [] (by decide) none "process start" k v hm)

lemma createFile_preserves (u : String) (argv : List String) (pid : Int)
    (abs : String → Except GoError String) (ce : Option GoError) (p : String) :
    preservesBase (baseFields u argv pid)
      (createFile (baseFields u argv pid) abs ce p).2 := by
  intro ev hev k v hm
  cases habs : abs p with
  | error e => simp [createFile, habs] at hev
  | ok ap =>
    cases ce with
    | some e =>
      simp only [createFile, habs, List.mem_singleton] at hev
      subst hev
      exact errLog_preserves u argv pid
        [("file activity", .str "create"), ("file path", .str ap)]
        (forall_mem_not_base_of ["file activity", "file path"] (by decide) _ rfl)
        (some e) "create file" k v hm
    | none =>
      simp only [createFile, habs, List.mem_singleton] at hev
      subst hev
      exact errLog_preserves u argv pid
        [("file activity", .str "create"), ("file path", .str ap)]
        (forall_mem_not_base_of ["file activity", "file path"] (by decide) _ rfl)
        none "create file" k v hm

lemma modifyFile_preserves (u : String) (argv : List String) (pid : Int)
    (abs : String → Except GoError String) (menv : ModEnv)
    (file : Option FileHandle) :
    preservesBase (baseFields u argv pid)
      (modifyFile (baseFields u argv pid) abs menv file).2 := by
  intro ev hev k v hm
  cases file with
  | none => simp [modifyFile] at hev
  | some f =>
    cases habs : abs f.name with
    | error e => simp [modifyFile, habs] at hev
    | ok ap =>
      obtain ⟨dp, sd, ce⟩ := menv
      have hfin : ∀ co : Option GoError,
          ev ∈ [errLog (withFields (baseFields u argv pid)
            [("file activity", .str "modify"), ("file path", .str ap)])
              co "modify file"] →
          lookupF k ev.fields = some v := by
        intro co hev'
        simp only [List.mem_singleton] at hev'
        subst hev'
        exact errLog_preserves u argv pid
          [("file activity", .str "modify"), ("file path", .str ap)]
          (forall_mem_not_base_of ["file activity", "file path"] (by decide) _ rfl)
          co "modify file" k v hm
      cases dp with
      | false =>
        cases hc : ce <;> simp only [modifyFile, habs, hc] at hev <;>
          exact hfin _ hev
      | true =>
        cases sd with
        | none =>
          cases hc : ce <;> simp only [modifyFile, habs, hc] at hev <;>
            exact hfin _ hev
        | some e =>
          cases hno : e.is .errNoDeadline with
          | true =>
            cases hc : ce <;> simp only [modifyFile, habs, hno, hc] at hev <;>
              exact hfin _ hev
          | false =>
            simp [modifyFile, habs, hno] at hev

lemma deleteFile_preserves (u : String) (argv : List String) (pid : Int)
    (abs : String → Except GoError String) (fs : List String) (p : String) :
    preservesBase (baseFields u argv pid)
      (deleteFile (baseFields u argv pid) abs fs p).2 := by
  intro ev hev k v hm
  cases habs : abs p with
  | error e => simp [deleteFile, habs] at hev
  | ok ap =>
    cases hr : osRemove fs p <;>
      simp only [deleteFile, habs, hr, List.mem_singleton] at hev <;>
      (subst hev;
       exact errLog_preserves u argv pid
         [("file activity", .str "delete"), ("file path", .str ap)]
         (forall_mem_not_base_of ["file activity", "file path"] (by decide) _ rfl)
         _ "delete file" k v hm)

lemma connectAndTransmit_preserves (u : String) (argv : List String) (pid : Int)
    (cenv : CATEnv) (addr : String) (payload : Option (List Nat)) :
    preservesBase (baseFields u argv pid)
      (connectAndTransmit (baseFields u argv pid) cenv addr payload).trace := by
  intro ev hev k v hm
  cases payload with
  | none => simp [connectAndTransmit] at hev
  | some p =>
    obtain ⟨de, la, ra, cp, cl⟩ := cenv
    cases de with
    | some e => simp [connectAndTransmit] at hev
    | none =>
      have hev' : ∀ (co : Option GoError) (n : Int),
          ev = errLog (withFields (withFields (baseFields u argv pid)
              [("destination address", .str ra), ("source address", .str la),
               ("protocol", .str "tcp")]) [("data sent (bytes)", .int n)])
            co "data transmission" →
          lookupF k ev.fields = some v := by
        intro co n h
        subst h
        exact errLog_preserves u argv pid
          [("data sent (bytes)", .int n), ("destination address", .str ra),
           ("source address", .str la), ("protocol", .str "tcp")]
          (forall_mem_not_base_of
            ["data sent (bytes)", "destination address", "source address",
             "protocol"] (by decide) _ rfl)
          co "data transmission" k v hm
      have hcl' : ∀ e : GoError,
          ev = { level := .error, msg := "close client network connection",
                 fields := ("error", .err e) :: baseFields u argv pid } →
          lookupF k ev.fields = some v := by
        intro e h
        subst h
        exact preserved_in_extra u argv pid [("error", .err e)]
          (forall_mem_not_base_of ["error"] (by decide) _ rfl) k v hm
      cases cp with
      | ok =>
        cases cl with
        | some e =>
          simp only [connectAndTransmit, List.mem_cons, List.mem_singleton,
            List.singleton_append, List.not_mem_nil, or_false] at hev
          rcases hev with h | h
          · exact hev' _ _ h
          · exact hcl' _ h
        | none =>
          simp only [connectAndTransmit, List.mem_singleton,
            List.append_nil] at hev
          exact hev' _ _ hev
      | fail m e' =>
        cases cl with
        | some e =>
          simp only [connectAndTransmit, List.mem_cons, List.mem_singleton,
            List.singleton_append, List.not_mem_nil, or_false] at hev
          rcases hev with h | h
          · exact hev' _ _ h
          · exact hcl' _ h
        | none =>
          simp only [connectAndTransmit, List.mem_singleton,
            List.append_nil] at hev
          exact hev' _ _ hev

/-- C7. Generator construction fails (with the wrapped user-resolution
error) when resolving the current OS user fails; otherwise it builds the
correlation field set — username, process name = argv[0], command line =
the arguments joined by single spaces, process id — exactly once, and
every event logged by any of the five activity operations carries every
one of these fields unchanged, merged with the activity-specific fields. -/
theorem c7_correlation_fields (argv : List String) (pid : Int) :
    (∀ e, newActivityGenerator (Except.error e) argv pid
        = Except.error (GoError.wrap "unable to get user information" e))
    ∧ ∀ u : String,
        newActivityGenerator (Except.ok u) argv pid
            = Except.ok (baseFields u argv pid)
        ∧ (∀ env : ProcEnv, preservesBase (baseFields u argv pid)
            (runProcess (baseFields u argv pid) env).2)
        ∧ (∀ abs ce p, preservesBase (baseFields u argv pid)
            (createFile (baseFields u argv pid) abs ce p).2)
        ∧ (∀ abs menv file, preservesBase (baseFields u argv pid)
            (modifyFile (baseFields u argv pid) abs menv file).2)
        ∧ (∀ abs fs p, preservesBase (baseFields u argv pid)
            (deleteFile (baseFields u argv pid) abs fs p).2)
        ∧ (∀ cenv adr payload, preservesBase (baseFields u argv pid)
            (connectAndTransmit (baseFields u argv pid) cenv adr payload).trace) :=
  ⟨fun _ => rfl, fun u =>
    ⟨rfl, runProcess_preserves u argv pid, createFile_preserves u argv pid,
     modifyFile_preserves u argv pid, deleteFile_preserves u argv pid,
     connectAndTransmit_preserves u argv pid⟩⟩

/-- C7 witness: construction succeeds for user "alice" and the "username"
field survives in a process-start event. -/
theorem c7_correlation_fields_witness :
    newActivityGenerator (Except.ok "alice") ["red"] 7
        = Except.ok (baseFields "alice" ["red"] 7)
    ∧ lookupF "username"
        (errLog (baseFields "alice" ["red"] 7) none "process start").fields
        = some (.str "alice") := by
  have h := c7_correlation_fields ["red"] 7
  refine ⟨(h.2 "alice").1, ?_⟩
  exact (h.2 "alice").2.1 { startErr := none, wait := .exited 0 }
    (errLog (baseFields "alice" ["red"] 7) none "process start")
    (List.Mem.head _) "username" (.str "alice") (List.Mem.head _)

end Red
